import Mathlib

/-!
Shallow embedding of `src/app.py`, a Flask + SQLAlchemy backend with four
entities (Package, Booking, ContactMessage, Gallery) and per-entity request
handlers.  JSON bodies are modelled as association lists from keys to
`PyVal`; `PyVal.none` stands both for Python `None` and for JSON `null`
(Flask's `request.json` decodes JSON `null` to Python `None`).  The database
is modelled as one list of rows per table plus the auto-increment counter the
storage engine keeps per table; the primary-key uniqueness the engine
guarantees is reflected by `Nodup` hypotheses where a proof needs it.

Columns declared `nullable=False` (Package.name/price, Booking's
user_name/user_phone, ContactMessage's name/email/message, Gallery's
image_url) make `db.session.commit()` raise an IntegrityError when the value
written is `None`: the request then surfaces as an unhandled 500 and nothing
is written.  The handlers below model that path explicitly: status 500, the
state unchanged, and (since the framework's error page is not JSON) an empty
mapping as the body.
-/

/-- A Python value as it appears in a decoded JSON body or in a row field. -/
inductive PyVal where
  | none
  | str (s : String)
  | num (n : Int)
  | bool (b : Bool)
deriving DecidableEq

/-- Python truthiness, as used by the `or` fallback in `manage_bookings`. -/
def PyVal.truthy : PyVal → Bool
  | .none => false
  | .str s => !(s == "")
  | .num n => !(n == 0)
  | .bool b => b

/-- Python `a or b`: `a` if `a` is truthy, else `b`. -/
def pyOr (a b : PyVal) : PyVal := if a.truthy then a else b

/-- A decoded JSON object / serialized row: key-value pairs with unique keys. -/
def Dict : Type := List (String × PyVal)

instance : DecidableEq Dict := inferInstanceAs (DecidableEq (List (String × PyVal)))

instance : Membership (String × PyVal) Dict := inferInstanceAs (Membership _ (List (String × PyVal)))

/-- Python `data.get(k)`: the value under `k`, or `None` when `k` is absent. -/
def pyGet (d : Dict) (k : String) : PyVal := (List.lookup k d).getD PyVal.none

/-- Python `data.get(k, v)`: the value under `k` when the key is present
(even when that value is `None`), else the default `v`. -/
def pyGetD (d : Dict) (k : String) (v : PyVal) : PyVal := (List.lookup k d).getD v

/-- A row of the `Package` table (`class Package` in `app.py`). -/
structure Package where
  id : Nat
  name : PyVal
  price : PyVal
  description : PyVal
  image : PyVal
deriving DecidableEq

/-- `Package.to_dict` from `app.py`. -/
def Package.to_dict (p : Package) : Dict :=
  [("_id", PyVal.str (toString p.id)), ("name", p.name), ("price", p.price),
   ("description", p.description), ("image", p.image)]

/-- A row of the `Booking` table (`class Booking` in `app.py`). -/
structure Booking where
  id : Nat
  user_name : PyVal
  user_email : PyVal
  user_phone : PyVal
  event_date : PyVal
  package_name : PyVal
  submitted_at : PyVal
deriving DecidableEq

/-- `Booking.to_dict` from `app.py`: internal field names are renamed to the
external keys `customer_name`, `contact`, `date`, `package`. -/
def Booking.to_dict (b : Booking) : Dict :=
  [("_id", PyVal.str (toString b.id)), ("customer_name", b.user_name),
   ("user_email", b.user_email), ("contact", b.user_phone),
   ("date", b.event_date), ("package", b.package_name),
   ("submitted_at", b.submitted_at)]

/-- A row of the `ContactMessage` table (`class ContactMessage` in `app.py`). -/
structure ContactMessage where
  id : Nat
  name : PyVal
  email : PyVal
  message : PyVal
  submitted_at : PyVal
deriving DecidableEq

/-- `ContactMessage.to_dict` from `app.py`. -/
def ContactMessage.to_dict (m : ContactMessage) : Dict :=
  [("_id", PyVal.str (toString m.id)), ("name", m.name), ("email", m.email),
   ("message", m.message), ("submitted_at", m.submitted_at)]

/-- A row of the `Gallery` table (`class Gallery` in `app.py`). -/
structure Gallery where
  id : Nat
  title : PyVal
  image_url : PyVal
  category : PyVal
deriving DecidableEq

/-- `Gallery.to_dict` from `app.py`. -/
def Gallery.to_dict (g : Gallery) : Dict :=
  [("_id", PyVal.str (toString g.id)), ("title", g.title),
   ("image_url", g.image_url), ("category", g.category)]

/-- The database state: one table per entity plus the auto-increment counter
the storage engine keeps for each table's primary key. -/
structure AppState where
  packages : List Package
  bookings : List Booking
  contacts : List ContactMessage
  galleries : List Gallery
  nextPackageId : Nat
  nextBookingId : Nat
  nextContactId : Nat
  nextGalleryId : Nat
deriving DecidableEq

/-- The `Package(...)` constructor call inside `manage_packages` (POST):
each field is `data.get(key)`. -/
def Package.create (data : Dict) (id : Nat) : Package :=
  { id := id
    name := pyGet data "name"
    price := pyGet data "price"
    description := pyGet data "description"
    image := pyGet data "image" }

/-- `GET /api/packages`: serialize every row of the Package table. -/
def manage_packages_get (s : AppState) : List Dict :=
  s.packages.map Package.to_dict

/-- `POST /api/packages`: insert a new row (the engine assigns the next id)
and respond `201 {"message": "Package added", "id": str(new_pkg.id)}`.
When `name` or `price` is `None` the commit raises NOT NULL: nothing is
inserted and the request surfaces as an unhandled 500. -/
def manage_packages_post (s : AppState) (data : Dict) : AppState × Nat × Dict :=
  let pkg := Package.create data s.nextPackageId
  if pkg.name = PyVal.none ∨ pkg.price = PyVal.none then
    (s, 500, [])
  else
    ({ s with packages := s.packages ++ [pkg], nextPackageId := s.nextPackageId + 1 },
     201,
     [("message", PyVal.str "Package added"), ("id", PyVal.str (toString pkg.id))])

/-- The field assignments of the PUT branch of `update_package`:
`pkg.f = data.get('f', pkg.f)` for each of the four fields. -/
def Package.applyPut (data : Dict) (p : Package) : Package :=
  { p with
    name := pyGetD data "name" p.name
    price := pyGetD data "price" p.price
    description := pyGetD data "description" p.description
    image := pyGetD data "image" p.image }

/-- `PUT /api/packages/<id>`: 404 when no row has the identifier; else apply
the assignments and commit.  If the updated row's `name` or `price` became
`None` the commit raises NOT NULL: the table is left unchanged and the
request surfaces as an unhandled 500; otherwise the row with that primary
key is updated in place and the response is `200 {"message": ...}`.
(`db.session.get(Package, id)` is a primary-key lookup; updating every row
whose id matches coincides with it because primary keys are unique.) -/
def update_package_put (s : AppState) (id : Nat) (data : Dict) :
    AppState × Nat × Dict :=
  match s.packages.find? (fun r => r.id == id) with
  | Option.none => (s, 404, [("message", PyVal.str "Package not found")])
  | Option.some pkg =>
      let upd := Package.applyPut data pkg
      if upd.name = PyVal.none ∨ upd.price = PyVal.none then
        (s, 500, [])
      else
        ({ s with packages :=
            s.packages.map (fun r => if r.id == id then Package.applyPut data r else r) },
         200, [("message", PyVal.str "Package updated")])

/-- `DELETE /api/packages/<id>`: 404 when no row has the identifier, else
remove the row found by primary key and respond `200 {"message": ...}`. -/
def update_package_delete (s : AppState) (id : Nat) : AppState × Nat × Dict :=
  match s.packages.find? (fun r => r.id == id) with
  | Option.none => (s, 404, [("message", PyVal.str "Package not found")])
  | Option.some _ =>
      ({ s with packages := s.packages.eraseP (fun r => r.id == id) },
       200, [("message", PyVal.str "Package deleted")])

/-- The `Booking(...)` constructor call inside `manage_bookings` (POST):
primary external key, `or`-fallback to the internal-style key; `package` has
no fallback; `user_email` is never passed (stays NULL); `submitted_at` gets
the column default, the current time formatted as a string (`now`). -/
def Booking.create (data : Dict) (now : String) (id : Nat) : Booking :=
  { id := id
    user_name := pyOr (pyGet data "customer_name") (pyGet data "user_name")
    user_email := PyVal.none
    user_phone := pyOr (pyGet data "contact") (pyGet data "user_phone")
    event_date := pyOr (pyGet data "date") (pyGet data "event_date")
    package_name := pyGet data "package"
    submitted_at := PyVal.str now }

/-- `POST /api/bookings`: insert and respond
`201 {"message": "Booking successful", "id": str(new_booking.id)}`.
When the resolved `user_name` or `user_phone` is `None` the commit raises
NOT NULL: nothing is inserted and the request surfaces as an unhandled 500. -/
def manage_bookings_post (s : AppState) (data : Dict) (now : String) :
    AppState × Nat × Dict :=
  let b := Booking.create data now s.nextBookingId
  if b.user_name = PyVal.none ∨ b.user_phone = PyVal.none then
    (s, 500, [])
  else
    ({ s with bookings := s.bookings ++ [b], nextBookingId := s.nextBookingId + 1 },
     201,
     [("message", PyVal.str "Booking successful"), ("id", PyVal.str (toString b.id))])

/-- The `ContactMessage(...)` constructor call inside `contact_message` (POST). -/
def ContactMessage.create (data : Dict) (now : String) (id : Nat) : ContactMessage :=
  { id := id
    name := pyGet data "name"
    email := pyGet data "email"
    message := pyGet data "message"
    submitted_at := PyVal.str now }

/-- `GET /api/contact`. -/
def contact_message_get (s : AppState) : List Dict :=
  s.contacts.map ContactMessage.to_dict

/-- `POST /api/contact`: insert and respond `200 {"message": "Message received"}`
(plain `jsonify` with no explicit status, hence 200).  When `name`, `email`
or `message` is `None` the commit raises NOT NULL: nothing is inserted and
the request surfaces as an unhandled 500. -/
def contact_message_post (s : AppState) (data : Dict) (now : String) :
    AppState × Nat × Dict :=
  let m := ContactMessage.create data now s.nextContactId
  if m.name = PyVal.none ∨ m.email = PyVal.none ∨ m.message = PyVal.none then
    (s, 500, [])
  else
    ({ s with contacts := s.contacts ++ [m], nextContactId := s.nextContactId + 1 },
     200, [("message", PyVal.str "Message received")])

/-- The `Gallery(...)` constructor call inside `manage_gallery` (POST). -/
def Gallery.create (data : Dict) (id : Nat) : Gallery :=
  { id := id
    title := pyGet data "title"
    image_url := pyGet data "image_url"
    category := pyGet data "category" }

/-- `GET /api/gallery`. -/
def manage_gallery_get (s : AppState) : List Dict :=
  s.galleries.map Gallery.to_dict

/-- `POST /api/gallery`: insert and respond `200 {"message": "Image added to gallery"}`.
When `image_url` is `None` the commit raises NOT NULL: nothing is inserted
and the request surfaces as an unhandled 500. -/
def manage_gallery_post (s : AppState) (data : Dict) : AppState × Nat × Dict :=
  let g := Gallery.create data s.nextGalleryId
  if g.image_url = PyVal.none then
    (s, 500, [])
  else
    ({ s with galleries := s.galleries ++ [g], nextGalleryId := s.nextGalleryId + 1 },
     200, [("message", PyVal.str "Image added to gallery")])

/-- One state-relevant API request (GET endpoints do not touch the state but
are listed so a step covers the whole HTTP surface). -/
inductive Op where
  | packagesGet
  | packagesPost (data : Dict)
  | packagePut (id : Nat) (data : Dict)
  | packageDelete (id : Nat)
  | bookingsGet
  | bookingsPost (data : Dict) (now : String)
  | contactGet
  | contactPost (data : Dict) (now : String)
  | galleryGet
  | galleryPost (data : Dict)

/-- The state transition performed by one API request. -/
def apiStep : Op → AppState → AppState
  | .packagesGet, s => s
  | .packagesPost data, s => (manage_packages_post s data).1
  | .packagePut id data, s => (update_package_put s id data).1
  | .packageDelete id, s => (update_package_delete s id).1
  | .bookingsGet, s => s
  | .bookingsPost data now, s => (manage_bookings_post s data now).1
  | .contactGet, s => s
  | .contactPost data now, s => (contact_message_post s data now).1
  | .galleryGet, s => s
  | .galleryPost data, s => (manage_gallery_post s data).1

/-! ### Auxiliary facts: decimal printing of identifiers is injective -/

lemma toDigitsCore_eq_digits (b : Nat) (hb : 1 < b) :
    ∀ (fuel n : Nat) (acc : List Char), 0 < n → n < fuel →
      Nat.toDigitsCore b fuel n acc
        = ((Nat.digits b n).map Nat.digitChar).reverse ++ acc := by
  intro fuel
  induction fuel with
  | zero => intro n acc _ h; omega
  | succ f ih =>
    intro n acc hn hlt
    rw [Nat.toDigitsCore]
    by_cases hq : n / b = 0
    · simp only [hq, if_pos]
      rw [Nat.digits_def' hb hn, hq, Nat.digits_zero]
      simp
    · simp only [hq, if_neg]
      rw [ih (n / b) (Nat.digitChar (n % b) :: acc) (Nat.pos_of_ne_zero hq) (by
        have : n / b < n := Nat.div_lt_self hn hb
        omega)]
      rw [Nat.digits_def' hb hn]
      simp

lemma toDigits_eq_digits (b n : Nat) (hb : 1 < b) (hn : 0 < n) :
    Nat.toDigits b n = ((Nat.digits b n).map Nat.digitChar).reverse := by
  have := toDigitsCore_eq_digits b hb (n + 1) n [] hn (Nat.lt_succ_self n)
  simpa [Nat.toDigits] using this

lemma digitChar_inj_lt10 : ∀ a < 10, ∀ c < 10, Nat.digitChar a = Nat.digitChar c → a = c := by
  decide

lemma map_digitChar_inj : ∀ (l1 l2 : List Nat), (∀ x ∈ l1, x < 10) → (∀ x ∈ l2, x < 10) →
    l1.map Nat.digitChar = l2.map Nat.digitChar → l1 = l2 := by
  intro l1
  induction l1 with
  | nil => intro l2 _ _ h; cases l2 <;> simp_all
  | cons a t ih =>
    intro l2 h1 h2 h
    cases l2 with
    | nil => simp_all
    | cons c t2 =>
      simp only [List.map_cons, List.cons.injEq] at h
      have ha : a = c := digitChar_inj_lt10 a (h1 a (by simp)) c (h2 c (by simp)) h.1
      have ht : t = t2 :=
        ih t2 (fun x hx => h1 x (by simp [hx])) (fun x hx => h2 x (by simp [hx])) h.2
      simp [ha, ht]

lemma toDigits_zero_ne_pos (n : Nat) (hn : 0 < n) : Nat.toDigits 10 n ≠ ['0'] := by
  rw [toDigits_eq_digits 10 n (by norm_num) hn]
  intro hcon
  have hmap : (Nat.digits 10 n).map Nat.digitChar = ['0'] := by
    have := congrArg List.reverse hcon
    simpa using this
  cases hd : Nat.digits 10 n with
  | nil => rw [hd] at hmap; simp at hmap
  | cons d t =>
    cases t with
    | nil =>
      rw [hd] at hmap
      simp only [List.map_cons, List.map_nil, List.cons.injEq, and_true] at hmap
      have hdlt : d < 10 := Nat.digits_lt_base (by norm_num) (by rw [hd]; simp)
      have hd0 : d = 0 := digitChar_inj_lt10 d hdlt 0 (by norm_num) (by simpa using hmap)
      have hof := congrArg (Nat.ofDigits 10) hd
      rw [Nat.ofDigits_digits] at hof
      rw [hd0] at hof
      simp [Nat.ofDigits_cons, Nat.ofDigits_nil] at hof
      omega
    | cons e t2 => rw [hd] at hmap; simp at hmap

lemma nat_repr_injective : ∀ m n : Nat, Nat.repr m = Nat.repr n → m = n := by
  intro m n h
  have hdata : Nat.toDigits 10 m = Nat.toDigits 10 n := by
    have := congrArg String.data h
    simpa [Nat.repr, List.asString] using this
  rcases Nat.eq_zero_or_pos m with hm | hm
  · rcases Nat.eq_zero_or_pos n with hn | hn
    · omega
    · exfalso
      subst hm
      have h0 : Nat.toDigits 10 0 = ['0'] := by decide
      rw [h0] at hdata
      exact toDigits_zero_ne_pos n hn hdata.symm
  · rcases Nat.eq_zero_or_pos n with hn | hn
    · exfalso
      subst hn
      have h0 : Nat.toDigits 10 0 = ['0'] := by decide
      rw [h0] at hdata
      exact toDigits_zero_ne_pos m hm hdata
    · rw [toDigits_eq_digits 10 m (by norm_num) hm,
        toDigits_eq_digits 10 n (by norm_num) hn] at hdata
      have hmap : (Nat.digits 10 m).map Nat.digitChar
          = (Nat.digits 10 n).map Nat.digitChar := by
        have := congrArg List.reverse hdata
        simpa using this
      have hdig : Nat.digits 10 m = Nat.digits 10 n :=
        map_digitChar_inj _ _ (fun x hx => Nat.digits_lt_base (by norm_num) hx)
          (fun x hx => Nat.digits_lt_base (by norm_num) hx) hmap
      have := congrArg (Nat.ofDigits 10) hdig
      rwa [Nat.ofDigits_digits, Nat.ofDigits_digits] at this

lemma toString_nat_injective {m n : Nat} (h : toString m = toString n) : m = n :=
  nat_repr_injective m n h

/-! ### Success-path equations for the mutating handlers -/

lemma manage_packages_post_success (s : AppState) (data : Dict)
    (hn : pyGet data "name" ≠ PyVal.none) (hp : pyGet data "price" ≠ PyVal.none) :
    manage_packages_post s data
      = ({ s with packages := s.packages ++ [Package.create data s.nextPackageId], nextPackageId := s.nextPackageId + 1 },
         201,
         [("message", PyVal.str "Package added"),
          ("id", PyVal.str (toString s.nextPackageId))]) := by
  simp only [manage_packages_post]
  rw [if_neg]
  · rfl
  · rintro (h | h)
    · exact hn h
    · exact hp h

lemma manage_bookings_post_success (s : AppState) (data : Dict) (now : String)
    (h1 : (Booking.create data now s.nextBookingId).user_name ≠ PyVal.none)
    (h2 : (Booking.create data now s.nextBookingId).user_phone ≠ PyVal.none) :
    manage_bookings_post s data now
      = ({ s with bookings := s.bookings ++ [Booking.create data now s.nextBookingId], nextBookingId := s.nextBookingId + 1 },
         201,
         [("message", PyVal.str "Booking successful"),
          ("id", PyVal.str (toString s.nextBookingId))]) := by
  simp only [manage_bookings_post]
  rw [if_neg]
  · rfl
  · rintro (h | h)
    · exact h1 h
    · exact h2 h

/-- The state of a freshly created database: empty tables, counters at 1
(SQLAlchemy auto-increment starts at 1). -/
def emptyState : AppState := ⟨[], [], [], [], 1, 1, 1, 1⟩

/-- A concrete Package row used by witnesses. -/
def pkgRow1 : Package :=
  { id := 1, name := PyVal.str "Royal", price := PyVal.str "20000",
    description := PyVal.str "Premium", image := PyVal.str "a.jpg" }

/-- A concrete one-row Package table used by witnesses. -/
def pkgState1 : AppState :=
  { emptyState with packages := [pkgRow1], nextPackageId := 2 }

/-- The alternate-keys Booking body from the spec's example. -/
def bookingAltBody : Dict := [("user_name", PyVal.str "B"), ("user_phone", PyVal.str "456")]

/-- The primary-keys Booking body corresponding to `bookingAltBody`. -/
def bookingPrimBody : Dict := [("customer_name", PyVal.str "B"), ("contact", PyVal.str "456")]

/-- A concrete Package POST body with both required fields. -/
def pkgBody0 : Dict := [("name", PyVal.str "A"), ("price", PyVal.str "10")]

/-- C1: for every Package created via POST /api/packages (the commit goes
through, i.e. the submitted name and price are not null), a subsequent
GET /api/packages returns a list containing a row whose `_id` equals the
identifier returned by the create and whose name, price, description and
image equal the submitted values. -/
theorem c1_package_create_then_list (s : AppState) (data : Dict)
    (hn : pyGet data "name" ≠ PyVal.none) (hp : pyGet data "price" ≠ PyVal.none) :
    ∃ d ∈ manage_packages_get (manage_packages_post s data).1,
      List.lookup "_id" d = List.lookup "id" (manage_packages_post s data).2.2 ∧
      List.lookup "name" d = some (pyGet data "name") ∧
      List.lookup "price" d = some (pyGet data "price") ∧
      List.lookup "description" d = some (pyGet data "description") ∧
      List.lookup "image" d = some (pyGet data "image") := by
  rw [manage_packages_post_success s data hn hp]
  refine ⟨Package.to_dict (Package.create data s.nextPackageId), ?_, rfl, rfl, rfl, rfl, rfl⟩
  simp [manage_packages_get]

/-- Witness for C1: a concrete create with name and price present is listed
with matching identifier and fields. -/
theorem c1_package_create_then_list_witness :
    pyGet pkgBody0 "name" ≠ PyVal.none ∧
    pyGet pkgBody0 "price" ≠ PyVal.none ∧
    (∃ d ∈ manage_packages_get (manage_packages_post emptyState pkgBody0).1,
      List.lookup "_id" d = List.lookup "id" (manage_packages_post emptyState pkgBody0).2.2 ∧
      List.lookup "name" d = some (pyGet pkgBody0 "name") ∧
      List.lookup "price" d = some (pyGet pkgBody0 "price") ∧
      List.lookup "description" d = some (pyGet pkgBody0 "description") ∧
      List.lookup "image" d = some (pyGet pkgBody0 "image")) :=
  ⟨by decide, by decide,
   c1_package_create_then_list emptyState pkgBody0 (by decide) (by decide)⟩

/-- C2: Booking create takes user_name from `customer_name` with fallback to
`user_name` when the primary key is absent, user_phone from `contact` with
fallback to `user_phone`, event_date from `date` with fallback to
`event_date`, and package_name only from `package`; when the commit goes
through (resolved name and phone not null) exactly that row is appended; in
particular the alternate-keys body populates the same fields as the
primary-key form. -/
theorem c2_booking_field_resolution (s : AppState) (data : Dict) (now : String) :
    ((Booking.create data now s.nextBookingId).user_name ≠ PyVal.none →
      (Booking.create data now s.nextBookingId).user_phone ≠ PyVal.none →
      (manage_bookings_post s data now).1.bookings
        = s.bookings ++ [Booking.create data now s.nextBookingId]) ∧
    (List.lookup "customer_name" data = Option.none →
      (Booking.create data now s.nextBookingId).user_name = pyGet data "user_name") ∧
    (List.lookup "contact" data = Option.none →
      (Booking.create data now s.nextBookingId).user_phone = pyGet data "user_phone") ∧
    (List.lookup "date" data = Option.none →
      (Booking.create data now s.nextBookingId).event_date = pyGet data "event_date") ∧
    (Booking.create data now s.nextBookingId).package_name = pyGet data "package" ∧
    (Booking.create bookingAltBody now s.nextBookingId).user_name
      = (Booking.create bookingPrimBody now s.nextBookingId).user_name ∧
    (Booking.create bookingAltBody now s.nextBookingId).user_phone
      = (Booking.create bookingPrimBody now s.nextBookingId).user_phone := by
  refine ⟨?_, ?_, ?_, ?_, rfl, rfl, rfl⟩
  · intro h1 h2
    rw [manage_bookings_post_success s data now h1 h2]
  · intro h
    simp [Booking.create, pyOr, pyGet, PyVal.truthy, h]
  · intro h
    simp [Booking.create, pyOr, pyGet, PyVal.truthy, h]
  · intro h
    simp [Booking.create, pyOr, pyGet, PyVal.truthy, h]

/-- Witness for C2: the alternate-keys body has no `customer_name`, `contact`
or `date` key, resolves to non-null name/phone, is appended on POST, and its
stored fields come from the alternate keys. -/
theorem c2_booking_field_resolution_witness :
    (Booking.create bookingAltBody "2025-01-01 10:00" 1).user_name ≠ PyVal.none ∧
    (Booking.create bookingAltBody "2025-01-01 10:00" 1).user_phone ≠ PyVal.none ∧
    (manage_bookings_post emptyState bookingAltBody "2025-01-01 10:00").1.bookings
      = [] ++ [Booking.create bookingAltBody "2025-01-01 10:00" 1] ∧
    List.lookup "customer_name" bookingAltBody = Option.none ∧
    List.lookup "contact" bookingAltBody = Option.none ∧
    List.lookup "date" bookingAltBody = Option.none ∧
    (Booking.create bookingAltBody "2025-01-01 10:00" 1).user_name
      = pyGet bookingAltBody "user_name" ∧
    (Booking.create bookingAltBody "2025-01-01 10:00" 1).user_phone
      = pyGet bookingAltBody "user_phone" ∧
    (Booking.create bookingAltBody "2025-01-01 10:00" 1).event_date
      = pyGet bookingAltBody "event_date" :=
  ⟨by decide, by decide,
   (c2_booking_field_resolution emptyState bookingAltBody "2025-01-01 10:00").1
     (by decide) (by decide),
   rfl, rfl, rfl,
   (c2_booking_field_resolution emptyState bookingAltBody "2025-01-01 10:00").2.1 rfl,
   (c2_booking_field_resolution emptyState bookingAltBody "2025-01-01 10:00").2.2.1 rfl,
   (c2_booking_field_resolution emptyState bookingAltBody "2025-01-01 10:00").2.2.2.1 rfl⟩

/-- C3: every entity serializes with `_id` holding the integer identifier
converted to a string; Booking renames user_name→customer_name,
user_phone→contact, event_date→date, package_name→package and keeps
user_email and submitted_at; Package, ContactMessage and Gallery keep their
field names. -/
theorem c3_serialization_contract (p : Package) (b : Booking)
    (m : ContactMessage) (g : Gallery) :
    List.lookup "_id" (Package.to_dict p) = some (PyVal.str (toString p.id)) ∧
    List.lookup "_id" (Booking.to_dict b) = some (PyVal.str (toString b.id)) ∧
    List.lookup "_id" (ContactMessage.to_dict m) = some (PyVal.str (toString m.id)) ∧
    List.lookup "_id" (Gallery.to_dict g) = some (PyVal.str (toString g.id)) ∧
    List.lookup "customer_name" (Booking.to_dict b) = some b.user_name ∧
    List.lookup "contact" (Booking.to_dict b) = some b.user_phone ∧
    List.lookup "date" (Booking.to_dict b) = some b.event_date ∧
    List.lookup "package" (Booking.to_dict b) = some b.package_name ∧
    List.lookup "user_email" (Booking.to_dict b) = some b.user_email ∧
    List.lookup "submitted_at" (Booking.to_dict b) = some b.submitted_at ∧
    List.lookup "name" (Package.to_dict p) = some p.name ∧
    List.lookup "price" (Package.to_dict p) = some p.price ∧
    List.lookup "description" (Package.to_dict p) = some p.description ∧
    List.lookup "image" (Package.to_dict p) = some p.image ∧
    List.lookup "name" (ContactMessage.to_dict m) = some m.name ∧
    List.lookup "email" (ContactMessage.to_dict m) = some m.email ∧
    List.lookup "message" (ContactMessage.to_dict m) = some m.message ∧
    List.lookup "submitted_at" (ContactMessage.to_dict m) = some m.submitted_at ∧
    List.lookup "title" (Gallery.to_dict g) = some g.title ∧
    List.lookup "image_url" (Gallery.to_dict g) = some g.image_url ∧
    List.lookup "category" (Gallery.to_dict g) = some g.category :=
  ⟨rfl, rfl, rfl, rfl, rfl, rfl, rfl, rfl, rfl, rfl, rfl,
   rfl, rfl, rfl, rfl, rfl, rfl, rfl, rfl, rfl, rfl⟩

/-- C9: the Booking fallback triggers on a falsy (empty-string or null)
primary key value, not only on an absent key: with `customer_name` present
but empty (or null) and `user_name` present, the stored user_name is the
`user_name` value; likewise for `contact`/`user_phone` and
`date`/`event_date`. -/
theorem c9_booking_falsy_fallback :
    (Booking.create [("customer_name", PyVal.str ""), ("user_name", PyVal.str "B")]
      "2025-01-01 10:00" 1).user_name = PyVal.str "B" ∧
    (Booking.create [("customer_name", PyVal.none), ("user_name", PyVal.str "B2")]
      "2025-01-01 10:00" 1).user_name = PyVal.str "B2" ∧
    (Booking.create [("contact", PyVal.str ""), ("user_phone", PyVal.str "456")]
      "2025-01-01 10:00" 1).user_phone = PyVal.str "456" ∧
    (Booking.create [("date", PyVal.str ""), ("event_date", PyVal.str "2025-05-05")]
      "2025-01-01 10:00" 1).event_date = PyVal.str "2025-05-05" :=
  ⟨rfl, rfl, rfl, rfl⟩

/-- After erasing the row found by a primary-key lookup, no row with that key
remains (primary keys are pairwise distinct). -/
lemma eraseP_id_not_mem (id : Nat) :
    ∀ l : List Package, (l.map Package.id).Nodup →
      ∀ r ∈ l.eraseP (fun x => x.id == id), r.id = id → False := by
  intro l
  induction l with
  | nil => intro _ r hr; simp at hr
  | cons a t ih =>
    intro hnd r hr hrid
    simp only [List.map_cons, List.nodup_cons] at hnd
    by_cases ha : a.id = id
    · rw [List.eraseP_cons_of_pos (by simp [ha])] at hr
      exact hnd.1 (by rw [ha, ← hrid]; exact List.mem_map_of_mem Package.id hr)
    · rw [List.eraseP_cons_of_neg (by simp [ha])] at hr
      rcases List.mem_cons.mp hr with h | h
      · exact ha (h ▸ hrid)
      · exact ih hnd.2 r h hrid

/-- C4: PUT /api/packages/<id> with a partial body overwrites only the fields
whose keys are present and leaves every other field of the row (and every
other row) unchanged: whenever the update commits (status 200), the row with
the addressed identifier keeps each field whose key is absent from the body
and takes the body's value for each field whose key is present. -/
theorem c4_package_put_partial_frame (s : AppState) (id : Nat) (data : Dict) :
    (∀ r ∈ s.packages, r.id ≠ id → r ∈ (update_package_put s id data).1.packages) ∧
    ((update_package_put s id data).2.1 = 200 →
      ∀ r ∈ s.packages, r.id = id →
        ∃ r' ∈ (update_package_put s id data).1.packages,
          r'.id = id ∧
          (List.lookup "name" data = Option.none → r'.name = r.name) ∧
          (List.lookup "price" data = Option.none → r'.price = r.price) ∧
          (List.lookup "description" data = Option.none → r'.description = r.description) ∧
          (List.lookup "image" data = Option.none → r'.image = r.image) ∧
          (∀ v, List.lookup "name" data = Option.some v → r'.name = v) ∧
          (∀ v, List.lookup "price" data = Option.some v → r'.price = v) ∧
          (∀ v, List.lookup "description" data = Option.some v → r'.description = v) ∧
          (∀ v, List.lookup "image" data = Option.some v → r'.image = v)) := by
  constructor
  · intro r hr hne
    cases hf : s.packages.find? (fun x => x.id == id) with
    | none => simpa [update_package_put, hf] using hr
    | some r0 =>
      by_cases hc : (Package.applyPut data r0).name = PyVal.none ∨
          (Package.applyPut data r0).price = PyVal.none
      · simpa [update_package_put, hf, hc] using hr
      · simp only [update_package_put, hf]
        rw [if_neg hc]
        exact List.mem_map.mpr ⟨r, hr, by simp [hne]⟩
  · intro h200 r hr hid
    cases hf : s.packages.find? (fun x => x.id == id) with
    | none => simp [update_package_put, hf] at h200
    | some r0 =>
      by_cases hc : (Package.applyPut data r0).name = PyVal.none ∨
          (Package.applyPut data r0).price = PyVal.none
      · simp [update_package_put, hf, hc] at h200
      · refine ⟨Package.applyPut data r, ?_, by simp [Package.applyPut, hid],
          fun hk => by simp [Package.applyPut, pyGetD, hk],
          fun hk => by simp [Package.applyPut, pyGetD, hk],
          fun hk => by simp [Package.applyPut, pyGetD, hk],
          fun hk => by simp [Package.applyPut, pyGetD, hk],
          fun v hk => by simp [Package.applyPut, pyGetD, hk],
          fun v hk => by simp [Package.applyPut, pyGetD, hk],
          fun v hk => by simp [Package.applyPut, pyGetD, hk],
          fun v hk => by simp [Package.applyPut, pyGetD, hk]⟩
        simp only [update_package_put, hf]
        rw [if_neg hc]
        exact List.mem_map.mpr ⟨r, hr, by simp [hid]⟩

/-- Witness for C4: updating the one-row table with body `{"price": "999"}`
commits (200), keeps name, description and image and changes only price. -/
theorem c4_package_put_partial_frame_witness :
    (update_package_put pkgState1 1 [("price", PyVal.str "999")]).2.1 = 200 ∧
    (∃ r' ∈ (update_package_put pkgState1 1 [("price", PyVal.str "999")]).1.packages,
      r'.id = 1 ∧ r'.name = PyVal.str "Royal" ∧ r'.description = PyVal.str "Premium" ∧
      r'.image = PyVal.str "a.jpg" ∧ r'.price = PyVal.str "999") := by
  refine ⟨by decide, ?_⟩
  obtain ⟨r', hmem, hid, hnabs, _, hdabs, hiabs, _, hpsome, _, _⟩ :=
    (c4_package_put_partial_frame pkgState1 1 [("price", PyVal.str "999")]).2
      (by decide) pkgRow1 (by simp [pkgState1]) rfl
  exact ⟨r', hmem, hid, hnabs rfl, hdabs rfl, hiabs rfl, hpsome (PyVal.str "999") rfl⟩

/-- C5: PUT and DELETE on /api/packages/<id> for an identifier not in the
table return 404 with a `{message}` body and leave the state unchanged, and
after a DELETE the GET list contains no row with that identifier. -/
theorem c5_package_not_found_and_delete (s : AppState) (id : Nat) (data : Dict)
    (hnd : (s.packages.map Package.id).Nodup) :
    (s.packages.find? (fun r => r.id == id) = Option.none →
      update_package_put s id data
        = (s, 404, [("message", PyVal.str "Package not found")]) ∧
      update_package_delete s id
        = (s, 404, [("message", PyVal.str "Package not found")])) ∧
    (∀ d ∈ manage_packages_get (update_package_delete s id).1,
      List.lookup "_id" d ≠ some (PyVal.str (toString id))) := by
  constructor
  · intro hf
    constructor
    · simp [update_package_put, hf]
    · simp [update_package_delete, hf]
  · intro d hd hlook
    cases hf : s.packages.find? (fun x => x.id == id) with
    | none =>
      have hd' : d ∈ s.packages.map Package.to_dict := by
        simpa [manage_packages_get, update_package_delete, hf] using hd
      obtain ⟨r, hr, hdr⟩ := List.mem_map.mp hd'
      have hlid : List.lookup "_id" d = some (PyVal.str (toString r.id)) := by
        rw [← hdr]; rfl
      rw [hlid] at hlook
      have hrid : r.id = id := toString_nat_injective (by simpa using hlook)
      have := List.find?_eq_none.mp hf r hr
      simp [hrid] at this
    | some r0 =>
      have hd' : d ∈ (s.packages.eraseP (fun x => x.id == id)).map Package.to_dict := by
        simpa [manage_packages_get, update_package_delete, hf] using hd
      obtain ⟨r, hr, hdr⟩ := List.mem_map.mp hd'
      have hlid : List.lookup "_id" d = some (PyVal.str (toString r.id)) := by
        rw [← hdr]; rfl
      rw [hlid] at hlook
      have hrid : r.id = id := toString_nat_injective (by simpa using hlook)
      exact eraseP_id_not_mem id s.packages hnd r hr hrid

/-- Witness for C5: on the one-row table, PUT and DELETE for the missing
identifier 2 return 404 and leave the state unchanged, and after DELETE of
identifier 1 the list contains no row with `_id` "1". -/
theorem c5_package_not_found_and_delete_witness :
    (pkgState1.packages.map Package.id).Nodup ∧
    pkgState1.packages.find? (fun r => r.id == 2) = Option.none ∧
    update_package_put pkgState1 2 [("price", PyVal.str "999")]
      = (pkgState1, 404, [("message", PyVal.str "Package not found")]) ∧
    update_package_delete pkgState1 2
      = (pkgState1, 404, [("message", PyVal.str "Package not found")]) ∧
    (∀ d ∈ manage_packages_get (update_package_delete pkgState1 1).1,
      List.lookup "_id" d ≠ some (PyVal.str (toString 1))) := by
  refine ⟨by decide, by decide, ?_, ?_, ?_⟩
  · exact ((c5_package_not_found_and_delete pkgState1 2 [("price", PyVal.str "999")]
      (by decide)).1 (by decide)).1
  · exact ((c5_package_not_found_and_delete pkgState1 2 [("price", PyVal.str "999")]
      (by decide)).1 (by decide)).2
  · exact (c5_package_not_found_and_delete pkgState1 1 [("price", PyVal.str "999")]
      (by decide)).2

/-- C10: a PUT body key present with JSON null overwrites the field with null
(the keep-current default applies only to absent keys): on a table whose
rows satisfy the NOT NULL column invariant (name and price non-null, as the
engine guarantees for every stored row), a body of `{"description": null}`
sets description to null on the addressed row. -/
theorem c10_put_null_overwrites (s : AppState) (id : Nat)
    (hwf : ∀ r ∈ s.packages, r.name ≠ PyVal.none ∧ r.price ≠ PyVal.none)
    (h : ∃ r ∈ s.packages, r.id = id) :
    ∃ r' ∈ (update_package_put s id [("description", PyVal.none)]).1.packages,
      r'.id = id ∧ r'.description = PyVal.none := by
  obtain ⟨r, hr, hid⟩ := h
  cases hf : s.packages.find? (fun x => x.id == id) with
  | none =>
    exfalso
    have := List.find?_eq_none.mp hf r hr
    simp [hid] at this
  | some r0 =>
    have hr0 : r0 ∈ s.packages := List.mem_of_find?_eq_some hf
    have hwf0 := hwf r0 hr0
    have hc : ¬((Package.applyPut [("description", PyVal.none)] r0).name = PyVal.none ∨
        (Package.applyPut [("description", PyVal.none)] r0).price = PyVal.none) := by
      rintro (hcon | hcon)
      · exact hwf0.1 hcon
      · exact hwf0.2 hcon
    refine ⟨Package.applyPut [("description", PyVal.none)] r, ?_,
      by simp [Package.applyPut, hid], rfl⟩
    simp only [update_package_put, hf]
    rw [if_neg hc]
    exact List.mem_map.mpr ⟨r, hr, by simp [hid]⟩

/-- Witness for C10: on the one-row table (description "Premium", name and
price non-null), the body `{"description": null}` leaves the row with a null
description. -/
theorem c10_put_null_overwrites_witness :
    (∀ r ∈ pkgState1.packages, r.name ≠ PyVal.none ∧ r.price ≠ PyVal.none) ∧
    (∃ r ∈ pkgState1.packages, r.id = 1) ∧
    (∃ r' ∈ (update_package_put pkgState1 1 [("description", PyVal.none)]).1.packages,
      r'.id = 1 ∧ r'.description = PyVal.none) :=
  ⟨by decide, ⟨pkgRow1, by simp [pkgState1], rfl⟩,
   c10_put_null_overwrites pkgState1 1 (by decide) ⟨pkgRow1, by simp [pkgState1], rfl⟩⟩

/-- C8: Booking, ContactMessage and Gallery rows are append-only and
immutable: every API request (including failed creates, which append
nothing) leaves the existing rows of these tables as a prefix of the new
table, only ever appending; submitted_at is assigned once at creation (the
creation-time string) and never revised afterwards. -/
theorem c8_append_only_immutable (op : Op) (s : AppState)
    (data : Dict) (now : String) (k : Nat) :
    (∃ tb tc tg,
      (apiStep op s).bookings = s.bookings ++ tb ∧
      (apiStep op s).contacts = s.contacts ++ tc ∧
      (apiStep op s).galleries = s.galleries ++ tg) ∧
    (Booking.create data now k).submitted_at = PyVal.str now ∧
    (ContactMessage.create data now k).submitted_at = PyVal.str now := by
  refine ⟨?_, rfl, rfl⟩
  cases op with
  | packagesGet => exact ⟨[], [], [], by simp [apiStep], by simp [apiStep], by simp [apiStep]⟩
  | packagesPost data2 =>
    refine ⟨[], [], [], ?_, ?_, ?_⟩ <;>
      · simp only [apiStep, manage_packages_post]
        split <;> simp
  | packagePut id2 data2 =>
    refine ⟨[], [], [], ?_, ?_, ?_⟩ <;>
      · cases hf : s.packages.find? (fun r => r.id == id2) with
        | none => simp [apiStep, update_package_put, hf]
        | some r0 =>
          simp only [apiStep, update_package_put, hf]
          split <;> simp
  | packageDelete id2 =>
    refine ⟨[], [], [], ?_, ?_, ?_⟩ <;>
      cases hf : s.packages.find? (fun r => r.id == id2) <;>
        simp [apiStep, update_package_delete, hf]
  | bookingsGet => exact ⟨[], [], [], by simp [apiStep], by simp [apiStep], by simp [apiStep]⟩
  | bookingsPost data2 now2 =>
    by_cases hc : (Booking.create data2 now2 s.nextBookingId).user_name = PyVal.none ∨
        (Booking.create data2 now2 s.nextBookingId).user_phone = PyVal.none
    · exact ⟨[], [], [], by simp [apiStep, manage_bookings_post, hc],
        by simp [apiStep, manage_bookings_post, hc],
        by simp [apiStep, manage_bookings_post, hc]⟩
    · exact ⟨[Booking.create data2 now2 s.nextBookingId], [], [],
        by simp [apiStep, manage_bookings_post, hc],
        by simp [apiStep, manage_bookings_post, hc],
        by simp [apiStep, manage_bookings_post, hc]⟩
  | contactGet => exact ⟨[], [], [], by simp [apiStep], by simp [apiStep], by simp [apiStep]⟩
  | contactPost data2 now2 =>
    by_cases hc : (ContactMessage.create data2 now2 s.nextContactId).name = PyVal.none ∨
        (ContactMessage.create data2 now2 s.nextContactId).email = PyVal.none ∨
        (ContactMessage.create data2 now2 s.nextContactId).message = PyVal.none
    · exact ⟨[], [], [], by simp [apiStep, contact_message_post, hc],
        by simp [apiStep, contact_message_post, hc],
        by simp [apiStep, contact_message_post, hc]⟩
    · exact ⟨[], [ContactMessage.create data2 now2 s.nextContactId], [],
        by simp [apiStep, contact_message_post, hc],
        by simp [apiStep, contact_message_post, hc],
        by simp [apiStep, contact_message_post, hc]⟩
  | galleryGet => exact ⟨[], [], [], by simp [apiStep], by simp [apiStep], by simp [apiStep]⟩
  | galleryPost data2 =>
    by_cases hc : (Gallery.create data2 s.nextGalleryId).image_url = PyVal.none
    · exact ⟨[], [], [], by simp [apiStep, manage_gallery_post, hc],
        by simp [apiStep, manage_gallery_post, hc],
        by simp [apiStep, manage_gallery_post, hc]⟩
    · exact ⟨[], [], [Gallery.create data2 s.nextGalleryId],
        by simp [apiStep, manage_gallery_post, hc],
        by simp [apiStep, manage_gallery_post, hc],
        by simp [apiStep, manage_gallery_post, hc]⟩
